import Mathlib

/-!
Shallow embedding of the CampusSpot booking coordination engine.

Sources embedded here:
* `server/config/appConfig.js` — policy constants (`BOOKING_POLICY`,
  `BOOKING_STATUS`, `USER_TYPES`, `VALID_CLUBS`).
* `server/services/policyService.js` — `snapToSlot`, `snapToNextBoundary`,
  `generateIdempotencyKey`, `validateBookingRequest`.
* `server/services/bookingService.js` — `createBooking`, `cancelBooking`,
  `checkIn`, `checkOut`.
* `server/services/cleanupService.js` — `processNoShows`,
  `completeFinishedBookings` (one reconciler cycle).
* `server/db/schema.sql` — the `unique_active_idempotency` partial index
  (modelled inside the insert step of `createBooking`).

Modelling conventions:
* Instants are `Int` epoch milliseconds (JS `Date.getTime()`), linearised:
  calendar-day arithmetic (`setDate`, `setHours`) becomes arithmetic on a
  86400000 ms day, and JS date fields (`getMinutes`, `getHours`) become
  `ediv`/`emod` extractions, which agree with the JS field semantics also
  for instants before the epoch.
* JS float comparisons on `durationMinutes = (end - start) / 60000` are
  rendered exactly by scaling the integer thresholds by 60000.
* The wall clock (`new Date()` / SQL `NOW()`) is passed explicitly as `now`.
* The store is a record of lists; each service call is a function from the
  store (plus `now` and the request) to `Except Err (Store × Booking)`.
  A transaction that throws is an `.error` result and leaves the caller
  with the unchanged input store (the `runInTransaction` rollback).
* Errors are a tagged variant, one constructor per `throw` site of the
  source, with `Err.status` giving the HTTP status the source attaches.
-/

/-- Booking lifecycle states (`BOOKING_STATUS` in appConfig.js). -/
inductive BStatus where
  | scheduled
  | checked_in
  | completed
  | released
deriving DecidableEq, Repr

/-- Caller categories (`USER_TYPES` in appConfig.js). -/
inductive UserType where
  | individual
  | club
deriving DecidableEq, Repr

/-- Booking classification produced by the policy validator. -/
inductive BookingType where
  | time_based
  | full_day
deriving DecidableEq, Repr

/-- One constructor per `throw` site of the booking/policy services.
`unitConflict` carries the `conflictDetails` payload of the source. -/
inductive Err where
  | facilityNotFound
  | pastBooking
  | horizonExceeded
  | endNotAfterStart
  | outsideOperatingHours
  | fullDayNotClub
  | tooShort
  | tooLong
  | fullDayConflictSlots
  | fullDayOnlyClubs
  | dayTakenByClub
  | dayHasBookings
  | invalidClub
  | userOverlap
  | noSpace
  | unitRequired
  | unitMismatch
  | unitConflict (bookedBy : String) (clubName : Option String)
      (userType : UserType) (startsAt endsAt : Int)
  | duplicateSubmission
  | bookingNotFound
  | identityMismatch
  | wrongStatus
  | tooEarly
  | windowExpired
deriving DecidableEq, Repr

/-- HTTP status attached to each throw site by the source. -/
def Err.status : Err → Nat
  | .facilityNotFound => 404
  | .pastBooking => 400
  | .horizonExceeded => 403
  | .endNotAfterStart => 400
  | .outsideOperatingHours => 400
  | .fullDayNotClub => 403
  | .tooShort => 400
  | .tooLong => 400
  | .fullDayConflictSlots => 409
  | .fullDayOnlyClubs => 403
  | .dayTakenByClub => 409
  | .dayHasBookings => 409
  | .invalidClub => 400
  | .userOverlap => 409
  | .noSpace => 409
  | .unitRequired => 400
  | .unitMismatch => 400
  | .unitConflict _ _ _ _ _ => 409
  | .duplicateSubmission => 409
  | .bookingNotFound => 404
  | .identityMismatch => 403
  | .wrongStatus => 400
  | .tooEarly => 403
  | .windowExpired => 403

/-- A facility row. `open_time` / `close_time` are minutes since midnight
(the result of `timeStringToMinutes` on the stored `TIME` strings; the
schema gives both columns defaults, so they are present on every row). -/
structure Facility where
  id : Nat
  category : String
  total_capacity : Nat
  is_pooled : Bool
  min_duration_minutes : Int
  max_duration_minutes : Int
  open_time : Int
  close_time : Int
deriving DecidableEq, Repr

/-- A facility_units row. -/
structure FacilityUnit where
  id : Nat
  facility_id : Nat
  unit_name : String
  is_operational : Bool
deriving DecidableEq, Repr

/-- A bookings row. -/
structure Booking where
  id : Nat
  facility_id : Nat
  unit_id : Option Nat
  booked_by : String
  user_type : UserType
  club_name : Option String
  booking_type : BookingType
  starts_at : Int
  ends_at : Int
  status : BStatus
  idempotency_key : String
deriving DecidableEq, Repr

/-- The transactional store: the three tables plus the serial counter that
assigns booking ids. -/
structure Store where
  facilities : List Facility
  units : List FacilityUnit
  bookings : List Booking
  nextId : Nat
deriving DecidableEq, Repr

/-- Policy constants of `BOOKING_POLICY` in appConfig.js.
`CLUB_BOOKING_HORIZON_DAYS` is read by policyService but never defined in
the config object, hence `none` (JS `undefined`). -/
def SLOT_SIZE_MINUTES : Int := 30

/-- Grace period for check-in after scheduled start (appConfig.js). -/
def NO_SHOW_GRACE_MINUTES : Int := 15

/-- Maximum advance booking window in days (appConfig.js). -/
def MAX_BOOKING_HORIZON_DAYS : Int := 7

/-- Minimum booking duration in minutes (appConfig.js). -/
def MIN_SESSION_MINUTES : Int := 30

/-- Read by policyService.validateBookingRequest but absent from the
`BOOKING_POLICY` object in appConfig.js, so it evaluates to `undefined`. -/
def CLUB_BOOKING_HORIZON_DAYS : Option Int := none

/-- Registered campus clubs (appConfig.js `VALID_CLUBS`). -/
def VALID_CLUBS : List String := ["Roobooru", "E-Cell", "Vision", "Tooryanad"]

/-- JS `date.getMinutes()` for an epoch-millisecond instant. -/
def minuteOfHour (t : Int) : Int := t / 60000 % 60

/-- The instant with minute, second and millisecond fields zeroed. -/
def hourFloor (t : Int) : Int := t - t % 3600000

/-- policyService.snapToSlot: round the minute field to the nearest
multiple of 30 (`Math.round(minutes / 30) * 30`, round-half-up, rendered
as `(2 * m + 30) / 60 * 30` over integers) and zero seconds/millis.
`setMinutes 60` rolls into the next hour, which plain addition models. -/
def snapToSlot (t : Int) : Int :=
  let minutes := minuteOfHour t
  hourFloor t + ((2 * minutes + 30) / 60 * 30) * 60000

/-- policyService.snapToNextBoundary: set the minute field to
`Math.ceil((minutes + 1) / 30) * 30` (ceiling rendered as
`(m + 1 + 29) / 30` over integers) and zero seconds/millis. -/
def snapToNextBoundary (t : Int) : Int :=
  let minutes := minuteOfHour t
  hourFloor t + ((minutes + 1 + 29) / 30 * 30) * 60000

/-- policyService.generateIdempotencyKey: `userName + "_" + epoch millis`. -/
def generateIdempotencyKey (userName : String) (startsAt : Int) : String :=
  userName ++ "_" ++ toString startsAt

/-- Minute-of-day of an instant, i.e. `getHours() * 60 + getMinutes()`. -/
def minuteOfDay (t : Int) : Int := t / 60000 % 1440

/-- policyService.validateBookingRequest, guards in source order.
`durationMinutes`-vs-threshold float comparisons are scaled by 60000 to
exact integer comparisons on the millisecond duration; `480 * 60000` is
the full-day cutoff `durationMinutes >= 480`. -/
def validateBookingRequest (facility : Facility) (startsAt endsAt : Int)
    (userType : UserType) (now : Int) : Except Err BookingType :=
  if startsAt < now then .error .pastBooking
  else
    let horizonDays : Option Int :=
      match userType with
      | .club => CLUB_BOOKING_HORIZON_DAYS
      | .individual => some MAX_BOOKING_HORIZON_DAYS
    let horizonLimit := now + horizonDays.getD 7 * 86400000
    if startsAt > horizonLimit then .error .horizonExceeded
    else if endsAt ≤ startsAt then .error .endNotAfterStart
    else
      let durationMs := endsAt - startsAt
      if durationMs < 480 * 60000 ∧
          (minuteOfDay startsAt < facility.open_time ∨
           minuteOfDay endsAt > facility.close_time) then
        .error .outsideOperatingHours
      else if durationMs ≥ 480 * 60000 then
        if userType ≠ .club then .error .fullDayNotClub
        else .ok .full_day
      else if durationMs < facility.min_duration_minutes * 60000 then
        .error .tooShort
      else if durationMs > facility.max_duration_minutes * 60000 then
        .error .tooLong
      else .ok .time_based

/-- An "active" booking: status scheduled or checked_in. -/
def isActive : BStatus → Bool
  | .scheduled => true
  | .checked_in => true
  | .completed => false
  | .released => false

/-- Local midnight of the civil day of `t` (`setHours(0,0,0,0)`). -/
def dayStart (t : Int) : Int := t - t % 86400000

/-- `setHours(23,59,59,999)` on the same civil day. -/
def dayEnd (t : Int) : Int := dayStart t + 86399999

/-- SQL equality on nullable unit ids: `unit_id = $1` is false whenever
either side is NULL. -/
def sqlEqOpt : Option Nat → Option Nat → Bool
  | some a, some b => a == b
  | _, _ => false

/-- JS `unitId || null` at the insert site: a falsy unitId (absent or 0)
is stored as NULL. -/
def jsOrNull (o : Option Nat) : Option Nat :=
  if o.getD 0 = 0 then none else o

/-- JS `clubName || null` at the insert site: absent or empty string is
stored as NULL. -/
def jsClubOrNull (o : Option String) : Option String :=
  if o = some "" then none else o

/-- JS `!clubName || !VALID_CLUBS.includes(clubName)` negated: the club
name is present and registered. -/
def validClubName : Option String → Bool
  | none => false
  | some c => VALID_CLUBS.contains c

/-- The blocking query of the time_based path: an active full_day booking on
the facility intersecting the civil day of the snapped start. -/
def hasFullDayConflict (bookings : List Booking) (facilityId : Nat)
    (snappedStart : Int) : Bool :=
  bookings.any fun b =>
    b.facility_id = facilityId ∧ b.booking_type = .full_day ∧
    isActive b.status ∧
    b.starts_at < dayEnd snappedStart ∧ b.ends_at > dayStart snappedStart

/-- The day-conflict query of the full_day path (`LIMIT 1`): any active booking
on the facility (if pooled) or on the requested unit (if unit-based)
intersecting the civil day of the snapped start. -/
def dayConflictRow (bookings : List Booking) (facility : Facility)
    (unitId : Option Nat) (facilityId : Nat) (snappedStart : Int) :
    Option Booking :=
  bookings.find? fun b =>
    (if facility.is_pooled then b.facility_id = facilityId
     else sqlEqOpt b.unit_id unitId = true) ∧
    isActive b.status ∧
    b.starts_at < dayEnd snappedStart ∧ b.ends_at > dayStart snappedStart

/-- The user self-overlap query: an active booking of the same user whose
interval intersects the requested window. -/
def hasUserOverlap (bookings : List Booking) (userName : String)
    (snappedStart snappedEnd : Int) : Bool :=
  bookings.any fun b =>
    b.booked_by = userName ∧ isActive b.status ∧
    b.starts_at < snappedEnd ∧ b.ends_at > snappedStart

/-- The pooled-capacity query: `COUNT(*)` of active bookings on the
facility overlapping the requested window. -/
def activeOverlapCount (bookings : List Booking) (facilityId : Nat)
    (snappedStart snappedEnd : Int) : Nat :=
  (bookings.filter fun b =>
    b.facility_id = facilityId ∧ isActive b.status ∧
    b.starts_at < snappedEnd ∧ b.ends_at > snappedStart).length

/-- The unit-overlap query (`LIMIT 1`): an active booking on the requested
unit overlapping the requested window. -/
def unitOverlapRow (bookings : List Booking) (unitId : Option Nat)
    (snappedStart snappedEnd : Int) : Option Booking :=
  bookings.find? fun b =>
    sqlEqOpt b.unit_id unitId = true ∧ isActive b.status ∧
    b.starts_at < snappedEnd ∧ b.ends_at > snappedStart

/-- The `unique_active_idempotency` partial unique index of schema.sql:
the insert violates it iff an active booking already holds the key. -/
def hasActiveKey (bookings : List Booking) (key : String) : Bool :=
  bookings.any fun b => b.idempotency_key = key ∧ isActive b.status

/-- A create request (`bookingDetails` destructured by createBooking). -/
structure CreateReq where
  facilityId : Nat
  unitId : Option Nat
  userName : String
  userType : UserType
  clubName : Option String
  startsAt : Int
  endsAt : Int
deriving DecidableEq, Repr

/-- The insert of step 9 of createBooking: the duplicate-key violation on
the active-idempotency index is remapped to the 409 duplicate-submission
error, otherwise the row is appended with `status = scheduled`. -/
def insertBooking (store : Store) (req : CreateReq) (bt : BookingType)
    (snappedStart snappedEnd : Int) (safetyKey : String) :
    Except Err (Store × Booking) :=
  if hasActiveKey store.bookings safetyKey then .error .duplicateSubmission
  else
    let b : Booking :=
      { id := store.nextId
        facility_id := req.facilityId
        unit_id := jsOrNull req.unitId
        booked_by := req.userName
        user_type := req.userType
        club_name := jsClubOrNull req.clubName
        booking_type := bt
        starts_at := snappedStart
        ends_at := snappedEnd
        status := .scheduled
        idempotency_key := safetyKey }
    .ok ({ store with
            bookings := store.bookings ++ [b]
            nextId := store.nextId + 1 }, b)

/-- bookingService.createBooking, the whole transaction. Guards appear in
source order; the full-day 403 and day-scan only run when the validator
classified the request as full_day, and the time_based full-day-conflict
scan only otherwise, exactly as the two `if (bookingType ...)` blocks. -/
def createBooking (store : Store) (now : Int) (req : CreateReq) :
    Except Err (Store × Booking) :=
  let snappedStart := snapToSlot req.startsAt
  let snappedEnd := snapToSlot req.endsAt
  let safetyKey := generateIdempotencyKey req.userName snappedStart
  match store.facilities.find? (fun f => f.id = req.facilityId) with
  | none => .error .facilityNotFound
  | some facility =>
    match validateBookingRequest facility snappedStart snappedEnd
        req.userType now with
    | .error e => .error e
    | .ok bookingType =>
      if bookingType ≠ .full_day ∧
          hasFullDayConflict store.bookings req.facilityId snappedStart then
        .error .fullDayConflictSlots
      else if bookingType = .full_day ∧ req.userType ≠ .club then
        .error .fullDayOnlyClubs
      else
        match (if bookingType = .full_day then
                dayConflictRow store.bookings facility req.unitId
                  req.facilityId snappedStart
               else none) with
        | some c =>
          if c.booking_type = .full_day then .error .dayTakenByClub
          else .error .dayHasBookings
        | none =>
          if req.userType = .club ∧ ¬ validClubName req.clubName then
            .error .invalidClub
          else if hasUserOverlap store.bookings req.userName snappedStart
              snappedEnd then
            .error .userOverlap
          else if facility.is_pooled then
            if activeOverlapCount store.bookings req.facilityId snappedStart
                snappedEnd ≥ facility.total_capacity then
              .error .noSpace
            else insertBooking store req bookingType snappedStart snappedEnd
              safetyKey
          else if req.unitId.getD 0 = 0 then .error .unitRequired
          else
            match store.units.find? (fun u =>
                u.id = req.unitId.getD 0 ∧
                u.facility_id = req.facilityId) with
            | none => .error .unitMismatch
            | some _ =>
              match unitOverlapRow store.bookings req.unitId snappedStart
                  snappedEnd with
              | some c =>
                .error (.unitConflict c.booked_by c.club_name c.user_type
                  c.starts_at c.ends_at)
              | none => insertBooking store req bookingType snappedStart
                  snappedEnd safetyKey

/-- Replace the booking row with the given id (the single-row UPDATE). -/
def updateBookingRow (bookings : List Booking) (bookingId : Nat)
    (b1 : Booking) : List Booking :=
  bookings.map fun x => if x.id = bookingId then b1 else x

/-- bookingService.cancelBooking: fetch under lock, then identity guard,
then status guard, then the UPDATE that sets status to released. -/
def cancelBooking (store : Store) (bookingId : Nat) (userName : String) :
    Except Err (Store × Booking) :=
  match store.bookings.find? (fun b => b.id = bookingId) with
  | none => .error .bookingNotFound
  | some booking =>
    if booking.booked_by ≠ userName then .error .identityMismatch
    else if booking.status ≠ .scheduled then .error .wrongStatus
    else
      let b1 := { booking with status := BStatus.released }
      .ok ({ store with
             bookings := updateBookingRow store.bookings bookingId b1 }, b1)

/-- bookingService.checkIn: fetch, lock facility and booking, identity
guard, status guard, early guard (`now < starts_at`), grace-window guard
(`now > starts_at + 15 min`), then the UPDATE to checked_in. -/
def checkIn (store : Store) (now : Int) (bookingId : Nat)
    (userName : String) : Except Err (Store × Booking) :=
  match store.bookings.find? (fun b => b.id = bookingId) with
  | none => .error .bookingNotFound
  | some booking =>
    if booking.booked_by ≠ userName then .error .identityMismatch
    else if booking.status ≠ .scheduled then .error .wrongStatus
    else if now < booking.starts_at then .error .tooEarly
    else if now > booking.starts_at + NO_SHOW_GRACE_MINUTES * 60000 then
      .error .windowExpired
    else
      let b1 := { booking with status := BStatus.checked_in }
      .ok ({ store with
             bookings := updateBookingRow store.bookings bookingId b1 }, b1)

/-- bookingService.checkOut: fetch, lock, identity guard, status guard
(must be checked_in), then the UPDATE to completed that also sets
`ends_at = snapToNextBoundary(now)`. -/
def checkOut (store : Store) (now : Int) (bookingId : Nat)
    (userName : String) : Except Err (Store × Booking) :=
  match store.bookings.find? (fun b => b.id = bookingId) with
  | none => .error .bookingNotFound
  | some booking =>
    if booking.booked_by ≠ userName then .error .identityMismatch
    else if booking.status ≠ .checked_in then .error .wrongStatus
    else
      let b1 := { booking with
                   status := BStatus.completed
                   ends_at := snapToNextBoundary now }
      .ok ({ store with
             bookings := updateBookingRow store.bookings bookingId b1 }, b1)

/-- cleanupService.processNoShows: every scheduled booking with
`starts_at < NOW() - 15 minutes` is re-checked under the row
lock and updated to released. Sequentially the re-check always re-finds
the selected row, so the cycle acts row-wise on the table. -/
def processNoShows (bookings : List Booking) (now : Int) : List Booking :=
  bookings.map fun b =>
    if b.status = .scheduled ∧
        b.starts_at < now - NO_SHOW_GRACE_MINUTES * 60000 then
      { b with status := BStatus.released }
    else b

/-- cleanupService.completeFinishedBookings: every checked_in booking with
`ends_at <= NOW()` is re-checked under the row lock and updated to
completed. -/
def completeFinishedBookings (bookings : List Booking) (now : Int) :
    List Booking :=
  bookings.map fun b =>
    if b.status = .checked_in ∧ b.ends_at ≤ now then
      { b with status := BStatus.completed }
    else b

/-- One reconciler cycle over the bookings table, in source order:
no-shows first, then expired sessions. -/
def runCleanupCycle (bookings : List Booking) (now : Int) : List Booking :=
  completeFinishedBookings (processNoShows bookings now) now

/-- Closed form of the next-boundary snap: one full 30-minute slot above
the slot-floor of `t`. -/
theorem snapToNextBoundary_closed (t : Int) :
    snapToNextBoundary t = (t / 1800000 + 1) * 1800000 := by
  show hourFloor t + ((minuteOfHour t + 1 + 29) / 30 * 30) * 60000 = _
  unfold minuteOfHour hourFloor
  set k := t / 60000 with hk
  set b := k % 60 with hb
  have h1 : b + 1 + 29 = b + 1 * 30 := by ring
  rw [h1, Int.add_mul_ediv_right _ _ (by norm_num : (30:Int) ≠ 0)]
  omega

/-- C4: for every checked_in booking whose owner checks out, the booking
moves to completed with `ends_at` rewritten to `snapToNextBoundary now`;
`snapToNextBoundary t` is the smallest 30-minute boundary strictly greater
than `t` for every instant `t`, so a check-out exactly on a boundary sets
`ends_at` to the boundary 30 minutes later. -/
theorem checkOut_completes_and_snaps (store : Store) (now : Int)
    (bookingId : Nat) (userName : String) (b b1 : Booking)
    (hfind : store.bookings.find? (fun x => x.id = bookingId) = some b)
    (hid : b.booked_by = userName) (hst : b.status = .checked_in)
    (hb1 : b1 = { b with status := .completed, ends_at := snapToNextBoundary now }) :
    checkOut store now bookingId userName =
      .ok ({ store with bookings := updateBookingRow store.bookings bookingId b1 }, b1) ∧
    (∀ t : Int, 1800000 ∣ snapToNextBoundary t ∧ t < snapToNextBoundary t ∧
      ∀ r : Int, 1800000 ∣ r → t < r → snapToNextBoundary t ≤ r) ∧
    (∀ t : Int, 1800000 ∣ t → snapToNextBoundary t = t + 1800000) := by
  subst hb1
  refine ⟨?_, ?_, ?_⟩
  · simp only [checkOut, hfind, hid, hst]
    simp
  · intro t
    rw [snapToNextBoundary_closed]
    refine ⟨⟨t / 1800000 + 1, by ring⟩, by omega, ?_⟩
    rintro r ⟨k, rfl⟩ hlt
    omega
  · rintro t ⟨k, rfl⟩
    rw [snapToNextBoundary_closed]
    omega

/-- The Basketball Courts facility of the seed data (unit-based). -/
def courts : Facility where
  id := 2
  category := "Sports"
  total_capacity := 3
  is_pooled := false
  min_duration_minutes := 30
  max_duration_minutes := 120
  open_time := 420
  close_time := 1380

/-- Court A of the Basketball Courts. -/
def courtUnitA : FacilityUnit where
  id := 10
  facility_id := 2
  unit_name := "Court A"
  is_operational := true

/-- A checked-in booking of alice on Court A, 17:00-18:00 of day 0. -/
def demoCheckedIn : Booking where
  id := 1
  facility_id := 2
  unit_id := some 10
  booked_by := "alice"
  user_type := .individual
  club_name := none
  booking_type := .time_based
  starts_at := 61200000
  ends_at := 64800000
  status := .checked_in
  idempotency_key := "alice_61200000"

/-- Store holding just the checked-in demo booking. -/
def demoStoreCheckedIn : Store where
  facilities := [courts]
  units := [courtUnitA]
  bookings := [demoCheckedIn]
  nextId := 2

/-- Witness for C4: alice checks out at 17:30 (63000000 ms); the booking
completes with ends_at snapped to 18:00 (64800000 ms). -/
theorem checkOut_completes_and_snaps_witness :
    demoStoreCheckedIn.bookings.find? (fun x => x.id = 1) = some demoCheckedIn ∧
    demoCheckedIn.booked_by = "alice" ∧
    demoCheckedIn.status = .checked_in ∧
    checkOut demoStoreCheckedIn 63000000 1 "alice" =
      .ok ({ demoStoreCheckedIn with
              bookings := updateBookingRow demoStoreCheckedIn.bookings 1
                ({ demoCheckedIn with status := .completed, ends_at := 64800000 }) },
           { demoCheckedIn with status := .completed, ends_at := 64800000 }) :=
  ⟨by decide, by decide, by decide,
   by
    have h := (checkOut_completes_and_snaps demoStoreCheckedIn 63000000 1 "alice"
      demoCheckedIn ({ demoCheckedIn with status := .completed, ends_at := 64800000 })
      (by decide) (by decide) (by decide) (by decide)).1
    exact h⟩

/-- C2: check-in succeeds, moving the booking from scheduled to
checked_in, exactly when the caller owns the booking, it is scheduled and
`now` lies in the closed grace window `[starts_at, starts_at + 15 min]`;
an early attempt fails `tooEarly` (403) and a late one `windowExpired`
(403), so both boundary instants succeed and the instants one step outside
fail Forbidden. -/
theorem checkIn_guard_characterization (store : Store) (now : Int)
    (bookingId : Nat) (userName : String) (b b1 : Booking)
    (hfind : store.bookings.find? (fun x => x.id = bookingId) = some b)
    (hb1 : b1 = { b with status := BStatus.checked_in }) :
    (checkIn store now bookingId userName =
        .ok ({ store with bookings := updateBookingRow store.bookings bookingId b1 },
          b1) ↔
      userName = b.booked_by ∧ b.status = .scheduled ∧
        b.starts_at ≤ now ∧ now ≤ b.starts_at + 900000) ∧
    (userName = b.booked_by → b.status = .scheduled → now < b.starts_at →
      checkIn store now bookingId userName = .error .tooEarly ∧
        Err.status .tooEarly = 403) ∧
    (userName = b.booked_by → b.status = .scheduled →
        now > b.starts_at + 900000 →
      checkIn store now bookingId userName = .error .windowExpired ∧
        Err.status .windowExpired = 403) := by
  subst hb1
  have hform : checkIn store now bookingId userName = (
      if b.booked_by ≠ userName then .error .identityMismatch
      else if b.status ≠ .scheduled then .error .wrongStatus
      else if now < b.starts_at then .error .tooEarly
      else if now > b.starts_at + NO_SHOW_GRACE_MINUTES * 60000 then
        .error .windowExpired
      else .ok ({ store with
            bookings := updateBookingRow store.bookings bookingId
              ({ b with status := BStatus.checked_in }) },
          { b with status := BStatus.checked_in })) := by
    simp only [checkIn, hfind]
  refine ⟨?_, ?_, ?_⟩
  · rw [hform]
    split_ifs with h1 h2 h3 h4
    · exact iff_of_false (by simp) (fun hc => h1 hc.1.symm)
    · exact iff_of_false (by simp) (fun hc => h2 hc.2.1)
    · exact iff_of_false (by simp) (fun hc => absurd hc.2.2.1 (by omega))
    · have h4n : now > b.starts_at + 900000 := by
        simpa [NO_SHOW_GRACE_MINUTES] using h4
      exact iff_of_false (by simp) (fun hc => absurd hc.2.2.2 (by omega))
    · push_neg at h1 h2 h3 h4
      have h4n : now ≤ b.starts_at + 900000 := by
        simpa [NO_SHOW_GRACE_MINUTES] using h4
      exact iff_of_true rfl ⟨h1.symm, h2, h3, h4n⟩
  · intro hu hs hlt
    rw [hform, if_neg (not_ne_iff.mpr hu.symm), if_neg (not_ne_iff.mpr hs),
      if_pos hlt]
    exact ⟨rfl, rfl⟩
  · intro hu hs hgt
    have hgt1 : now > b.starts_at + NO_SHOW_GRACE_MINUTES * 60000 := by
      unfold NO_SHOW_GRACE_MINUTES
      omega
    rw [hform, if_neg (not_ne_iff.mpr hu.symm), if_neg (not_ne_iff.mpr hs),
      if_neg (by omega : ¬ now < b.starts_at), if_pos hgt1]
    exact ⟨rfl, rfl⟩

/-- A scheduled booking of alice on Court A, 17:00-18:00 of day 0. -/
def demoScheduled : Booking where
  id := 1
  facility_id := 2
  unit_id := some 10
  booked_by := "alice"
  user_type := .individual
  club_name := none
  booking_type := .time_based
  starts_at := 61200000
  ends_at := 64800000
  status := .scheduled
  idempotency_key := "alice_61200000"

/-- The scheduled demo booking after a successful check-in. -/
def demoSchedCheckedIn : Booking := { demoScheduled with status := BStatus.checked_in }

/-- Store holding just the scheduled demo booking. -/
def demoStoreScheduled : Store where
  facilities := [courts]
  units := [courtUnitA]
  bookings := [demoScheduled]
  nextId := 2

/-- Witness for C2: checking in at exactly `starts_at + 15 min`
(62100000 ms) succeeds and flips the booking to checked_in. -/
theorem checkIn_guard_characterization_witness :
    demoStoreScheduled.bookings.find? (fun x => x.id = 1) = some demoScheduled ∧
    checkIn demoStoreScheduled 62100000 1 "alice" =
      .ok ({ demoStoreScheduled with
              bookings := updateBookingRow demoStoreScheduled.bookings 1
                demoSchedCheckedIn }, demoSchedCheckedIn) :=
  ⟨by decide,
   ((checkIn_guard_characterization demoStoreScheduled 62100000 1 "alice"
      demoScheduled demoSchedCheckedIn (by decide) (by decide)).1).mpr (by decide)⟩

/-- C10: cancel fails `bookingNotFound` (404) when the id is absent,
`identityMismatch` (403) when the caller is not the owner, `wrongStatus`
(400) when the booking is not scheduled — every error aborts the
transaction, which rolls back, so the store is unchanged — and on success
the booking becomes released with every other column unchanged. -/
theorem cancelBooking_characterization (store : Store) (bookingId : Nat)
    (userName : String) :
    (store.bookings.find? (fun x => x.id = bookingId) = none →
      cancelBooking store bookingId userName = .error .bookingNotFound ∧
        Err.status .bookingNotFound = 404) ∧
    (∀ b, store.bookings.find? (fun x => x.id = bookingId) = some b →
      (b.booked_by ≠ userName →
        cancelBooking store bookingId userName = .error .identityMismatch ∧
          Err.status .identityMismatch = 403) ∧
      (b.booked_by = userName → b.status ≠ .scheduled →
        cancelBooking store bookingId userName = .error .wrongStatus ∧
          Err.status .wrongStatus = 400) ∧
      (b.booked_by = userName → b.status = .scheduled →
        cancelBooking store bookingId userName =
          .ok ({ store with bookings := updateBookingRow store.bookings bookingId ({ b with status := BStatus.released }) }, { b with status := BStatus.released }))) := by
  constructor
  · intro hnone
    constructor
    · simp only [cancelBooking, hnone]
    · rfl
  · intro b hfind
    refine ⟨?_, ?_, ?_⟩
    · intro hne
      constructor
      · simp only [cancelBooking, hfind, if_pos hne]
      · rfl
    · intro heq hst
      rw [show cancelBooking store bookingId userName =
          .error .wrongStatus from by
        simp only [cancelBooking, hfind, if_neg (not_ne_iff.mpr heq),
          if_pos hst]]
      exact ⟨rfl, rfl⟩
    · intro heq hst
      simp only [cancelBooking, hfind, if_neg (not_ne_iff.mpr heq),
        if_neg (not_ne_iff.mpr hst)]

/-- Witness for C10: alice cancels her scheduled booking; the row becomes
released and nothing else changes. -/
theorem cancelBooking_characterization_witness :
    demoStoreScheduled.bookings.find? (fun x => x.id = 1) = some demoScheduled ∧
    cancelBooking demoStoreScheduled 1 "alice" =
      .ok ({ demoStoreScheduled with bookings := updateBookingRow demoStoreScheduled.bookings 1 ({ demoScheduled with status := BStatus.released }) }, { demoScheduled with status := BStatus.released }) :=
  ⟨by decide,
   ((cancelBooking_characterization demoStoreScheduled 1 "alice").2
      demoScheduled (by decide)).2.2 (by decide) (by decide)⟩

/-- C9: one reconciler cycle acts row-wise: a booking moves to released
iff it was scheduled with `starts_at < now - 15 min`, moves to completed
iff it was checked_in with `ends_at ≤ now`, terminal rows are never
touched, and a checked_in booking with `ends_at = now` completes in the
cycle running at `now` while one with `ends_at > now` is untouched.
Sequentially the under-lock re-check re-finds exactly the selected rows,
so select-then-recheck collapses to the row-wise condition. -/
theorem runCleanupCycle_characterization (now : Int)
    (bookings : List Booking) :
    runCleanupCycle bookings now = bookings.map (fun b =>
      if b.status = .scheduled ∧ b.starts_at < now - 900000 then
        { b with status := BStatus.released }
      else if b.status = .checked_in ∧ b.ends_at ≤ now then
        { b with status := BStatus.completed }
      else b) ∧
    (∀ b : Booking, b.status = .completed ∨ b.status = .released →
      runCleanupCycle [b] now = [b]) ∧
    (∀ b : Booking, b.status = .checked_in → b.ends_at = now →
      runCleanupCycle [b] now = [{ b with status := BStatus.completed }]) ∧
    (∀ b : Booking, b.status = .checked_in → now < b.ends_at →
      runCleanupCycle [b] now = [b]) ∧
    (∀ b : Booking, b.status = .scheduled → now ≤ b.starts_at + 900000 →
      runCleanupCycle [b] now = [b]) := by
  have hgrace : NO_SHOW_GRACE_MINUTES * 60000 = 900000 := by
    unfold NO_SHOW_GRACE_MINUTES
    norm_num
  refine ⟨?_, ?_, ?_, ?_, ?_⟩
  · unfold runCleanupCycle completeFinishedBookings processNoShows
    rw [List.map_map]
    refine List.map_congr_left ?_
    intro b _
    simp only [Function.comp_apply, hgrace]
    by_cases h1 : b.status = .scheduled ∧ b.starts_at < now - 900000
    · simp [h1]
    · rw [if_neg h1, if_neg h1]
  · rintro b (h | h) <;>
      simp [runCleanupCycle, completeFinishedBookings, processNoShows, h]
  · intro b h he
    simp [runCleanupCycle, completeFinishedBookings, processNoShows, h, he]
  · intro b h he
    have hcond : ¬ (b.status = .scheduled ∧
        b.starts_at < now - NO_SHOW_GRACE_MINUTES * 60000) := by
      rintro ⟨hc, -⟩
      rw [h] at hc
      exact absurd hc (by decide)
    have hcond2 : ¬ (b.status = .checked_in ∧ b.ends_at ≤ now) := by
      rintro ⟨-, hle⟩
      omega
    simp [runCleanupCycle, completeFinishedBookings, processNoShows, hcond,
      hcond2]
  · intro b h he
    have hcond : ¬ (b.status = .scheduled ∧
        b.starts_at < now - NO_SHOW_GRACE_MINUTES * 60000) := by
      rw [hgrace]
      rintro ⟨-, hlt⟩
      omega
    have hcond2 : ¬ (b.status = .checked_in ∧ b.ends_at ≤ now) := by
      rintro ⟨hc, -⟩
      rw [h] at hc
      exact absurd hc (by decide)
    simp [runCleanupCycle, completeFinishedBookings, processNoShows, hcond,
      hcond2]

/-- Witness for C9: the checked-in demo booking with `ends_at = now`
(18:00) completes in the cycle running at 18:00. -/
theorem runCleanupCycle_characterization_witness :
    demoCheckedIn.status = .checked_in ∧ demoCheckedIn.ends_at = 64800000 ∧
    runCleanupCycle [demoCheckedIn] 64800000 =
      [{ demoCheckedIn with status := BStatus.completed }] :=
  ⟨by decide, by decide,
   (runCleanupCycle_characterization 64800000 [demoCheckedIn]).2.2.1
     demoCheckedIn (by decide) (by decide)⟩

/-- The validator with the lets resolved: for both user types the horizon
falls back to 7 days, because the club field is `undefined` in config. -/
theorem validateBookingRequest_eq (facility : Facility) (s e : Int)
    (ut : UserType) (now : Int) :
    validateBookingRequest facility s e ut now = (
      if s < now then .error .pastBooking
      else if s > now + 604800000 then .error .horizonExceeded
      else if e ≤ s then .error .endNotAfterStart
      else if e - s < 28800000 ∧ (minuteOfDay s < facility.open_time ∨
          minuteOfDay e > facility.close_time) then
        .error .outsideOperatingHours
      else if e - s ≥ 28800000 then
        if ut ≠ .club then .error .fullDayNotClub else .ok .full_day
      else if e - s < facility.min_duration_minutes * 60000 then
        .error .tooShort
      else if e - s > facility.max_duration_minutes * 60000 then
        .error .tooLong
      else .ok .time_based) := by
  cases ut <;>
    simp only [validateBookingRequest, CLUB_BOOKING_HORIZON_DAYS,
      MAX_BOOKING_HORIZON_DAYS, Option.getD_none, Option.getD_some] <;>
    norm_num

/-- C3: whenever the validator returns a classification, it is full_day
exactly when the duration is at least 8 hours (so 8h is full_day and
8h - 1min is time_based), and a full_day classification reached by a
non-club caller fails with 403. -/
theorem validate_fullDay_classification (facility : Facility) (s e : Int)
    (ut : UserType) (now : Int) :
    (∀ bt, validateBookingRequest facility s e ut now = .ok bt →
      (bt = .full_day ↔ e - s ≥ 28800000)) ∧
    (¬ s < now → ¬ s > now + 604800000 → e > s → e - s ≥ 28800000 →
      ut ≠ .club →
      validateBookingRequest facility s e ut now = .error .fullDayNotClub ∧
        Err.status .fullDayNotClub = 403) := by
  rw [validateBookingRequest_eq]
  constructor
  · intro bt h
    split_ifs at h with h1 h2 h3 h4 h5 h6 h7 h8 <;>
      first
        | (cases Except.ok.inj h; exact iff_of_true rfl (by assumption))
        | (cases Except.ok.inj h; exact iff_of_false (by simp) (by assumption))
        | simp at h
  · intro h1 h2 h3 h4 h5
    rw [if_neg h1, if_neg h2, if_neg (by omega : ¬ e ≤ s),
      if_neg (by rintro ⟨hd, -⟩; omega), if_pos h4, if_pos h5]
    exact ⟨rfl, rfl⟩

/-- The Main Library facility of the seed data (pooled, open all day). -/
def library : Facility where
  id := 1
  category := "Study Space"
  total_capacity := 100
  is_pooled := true
  min_duration_minutes := 30
  max_duration_minutes := 480
  open_time := 0
  close_time := 1439

/-- Witness for C3: an 8-hour individual request fails 403 at the
full-day-club guard, and a 7h59m request the validator accepts is
classified time_based, witnessing the strict cutoff. -/
theorem validate_fullDay_classification_witness :
    ¬ (0:Int) < 0 ∧
    validateBookingRequest courts 0 28800000 .individual 0 =
      .error .fullDayNotClub ∧
    Err.status .fullDayNotClub = 403 ∧
    validateBookingRequest library 0 28740000 .individual 0 =
      .ok .time_based ∧
    (BookingType.time_based = BookingType.full_day ↔
      (28740000:Int) - 0 ≥ 28800000) :=
  ⟨by decide,
   ((validate_fullDay_classification courts 0 28800000 .individual 0).2
     (by decide) (by decide) (by decide) (by decide) (by decide)).1,
   rfl,
   by rfl,
   (validate_fullDay_classification library 0 28740000 .individual 0).1
     .time_based (by rfl)⟩

/-- C5: the validator rejects on the advance-booking horizon exactly when
`snappedStart > now + 7 days`, for both user types alike:
`CLUB_BOOKING_HORIZON_DAYS` is undefined in config, so `horizonDays || 7`
falls back to 7 days for clubs as well. -/
theorem validate_horizon_rule (facility : Facility) (s e : Int)
    (ut : UserType) (now : Int) :
    (validateBookingRequest facility s e ut now = .error .horizonExceeded ↔
      s > now + 7 * 86400000) ∧
    CLUB_BOOKING_HORIZON_DAYS = none ∧
    Err.status .horizonExceeded = 403 := by
  refine ⟨?_, rfl, rfl⟩
  rw [validateBookingRequest_eq]
  constructor
  · intro h
    split_ifs at h with h1 h2 h3 h4 h5 h6 h7 h8 <;> simp_all <;> omega
  · intro h
    rw [if_neg (by omega : ¬ s < now), if_pos (by omega : s > now + 604800000)]

/-- A whole-minute instant splits into its civil midnight plus its
minute-of-day. -/
theorem whole_minute_decomp (t : Int) (h60 : 60000 ∣ t) :
    t = dayStart t + minuteOfDay t * 60000 := by
  obtain ⟨k, rfl⟩ := h60
  unfold minuteOfDay dayStart
  rw [Int.mul_ediv_cancel_left _ (by norm_num : (60000:Int) ≠ 0)]
  have h2 : (60000 * k) % 86400000 = 60000 * (k % 1440) := by
    rw [show (86400000:Int) = 60000 * 1440 by norm_num]
    rw [Int.mul_emod_mul_of_pos _ _ (by norm_num : (0:Int) < 60000)]
  rw [h2]
  ring

/-- C6 counterexample: with the courts open 07:00-23:00, a 22:00-24:00
request (120 min, within min/max) is accepted as time_based although its
end instant lies strictly after close_time on the civil day it starts:
the hours check compares only time-of-day fields, and midnight wraps to
minute 0. -/
theorem validate_hours_cross_midnight_counterexample :
    validateBookingRequest courts 79200000 86400000 .individual 0 =
      .ok .time_based ∧
    ¬ (86400000 : Int) ≤ dayStart 79200000 + courts.close_time * 60000 := by
  constructor
  · rfl
  · decide

/-- C6 (amended): the validator fails the hours rule exactly when a
time_based-duration request has start time-of-day before open_time or end
time-of-day after close_time; every accepted time_based booking therefore
satisfies both time-of-day bounds, and — for whole-minute endpoints —
starts no earlier than open_time on its civil day and, provided it ends on
the civil day it starts, ends no later than close_time; a booking running
to midnight or beyond evades the close bound. -/
theorem validate_hours_amended (facility : Facility) (s e : Int)
    (ut : UserType) (now : Int) :
    (validateBookingRequest facility s e ut now =
        .error .outsideOperatingHours ↔
      (¬ s < now ∧ ¬ s > now + 604800000 ∧ e > s ∧ e - s < 28800000 ∧
        (minuteOfDay s < facility.open_time ∨
         minuteOfDay e > facility.close_time))) ∧
    (validateBookingRequest facility s e ut now = .ok .time_based →
      facility.open_time ≤ minuteOfDay s ∧
        minuteOfDay e ≤ facility.close_time) ∧
    (validateBookingRequest facility s e ut now = .ok .time_based →
      60000 ∣ s → 60000 ∣ e →
      dayStart s + facility.open_time * 60000 ≤ s ∧
        (dayStart s = dayStart e →
          e ≤ dayStart s + facility.close_time * 60000)) := by
  have hbounds : validateBookingRequest facility s e ut now =
      .ok .time_based →
      facility.open_time ≤ minuteOfDay s ∧
        minuteOfDay e ≤ facility.close_time := by
    rw [validateBookingRequest_eq]
    intro h
    split_ifs at h with h1 h2 h3 h4 h5 h6 h7 h8 <;> (try simp at h)
    push_neg at h4
    exact h4 (by omega)
  refine ⟨?_, hbounds, ?_⟩
  · rw [validateBookingRequest_eq]
    constructor
    · intro h
      split_ifs at h with h1 h2 h3 h4 h5 h6 h7 h8 <;> (try simp at h)
      exact ⟨h1, h2, by omega, h4.1, h4.2⟩
    · rintro ⟨h1, h2, h3, h4, h5⟩
      rw [if_neg h1, if_neg h2, if_neg (by omega : ¬ e ≤ s),
        if_pos ⟨h4, h5⟩]
  · intro h hs he
    obtain ⟨hopen, hclose⟩ := hbounds h
    have hds := whole_minute_decomp s hs
    have hde := whole_minute_decomp e he
    constructor
    · omega
    · intro hsame
      omega

/-- A validator success implies the window is nonempty. -/
theorem validate_ok_lt (facility : Facility) (s e : Int) (ut : UserType)
    (now : Int) (bt : BookingType)
    (h : validateBookingRequest facility s e ut now = .ok bt) : s < e := by
  rw [validateBookingRequest_eq] at h
  split_ifs at h with h1 h2 h3 h4 h5 h6 h7 h8 <;> first | omega | simp at h

/-- Inversion of a successful create: the facility was found, the
validator classified the request, every read-phase guard was clear, the
key was free, for a unit-based facility the named unit exists under the
facility, and the inserted row and new store have the recorded shape. -/
theorem createBooking_ok_inv (store : Store) (now : Int) (req : CreateReq)
    (s1 : Store) (b : Booking)
    (h : createBooking store now req = .ok (s1, b)) :
    ∃ facility bt,
      store.facilities.find? (fun f => f.id = req.facilityId) =
        some facility ∧
      validateBookingRequest facility (snapToSlot req.startsAt)
        (snapToSlot req.endsAt) req.userType now = .ok bt ∧
      (bt ≠ .full_day →
        hasFullDayConflict store.bookings req.facilityId
          (snapToSlot req.startsAt) = false) ∧
      (bt = .full_day →
        dayConflictRow store.bookings facility req.unitId req.facilityId
          (snapToSlot req.startsAt) = none) ∧
      (req.userType = .club → validClubName req.clubName = true) ∧
      hasUserOverlap store.bookings req.userName (snapToSlot req.startsAt)
        (snapToSlot req.endsAt) = false ∧
      hasActiveKey store.bookings
        (generateIdempotencyKey req.userName (snapToSlot req.startsAt)) =
        false ∧
      (facility.is_pooled = false →
        ∃ u unitRow, req.unitId = some u ∧ ¬ u = 0 ∧
          unitRow ∈ store.units ∧ unitRow.id = u ∧
          unitRow.facility_id = req.facilityId) ∧
      b = { id := store.nextId, facility_id := req.facilityId, unit_id := jsOrNull req.unitId, booked_by := req.userName, user_type := req.userType, club_name := jsClubOrNull req.clubName, booking_type := bt, starts_at := snapToSlot req.startsAt, ends_at := snapToSlot req.endsAt, status := .scheduled, idempotency_key := generateIdempotencyKey req.userName (snapToSlot req.startsAt) } ∧
      s1 = { store with bookings := store.bookings ++ [b], nextId := store.nextId + 1 } := by
  simp only [createBooking] at h
  split at h
  next hfac =>
    simp at h
  next facility hfac =>
    split at h
    next e0 hval =>
      simp at h
    next bt hval =>
      split at h
      next hc1 =>
        simp at h
      next hc1 =>
        split at h
        next hc2 =>
          simp at h
        next hc2 =>
          split at h
          next c hday =>
            split at h <;> simp at h
          next hday =>
            split at h
            next hclub =>
              simp at h
            next hclub =>
              split at h
              next hov =>
                simp at h
              next hov =>
                have hcfd : bt ≠ .full_day →
                    hasFullDayConflict store.bookings req.facilityId
                      (snapToSlot req.startsAt) = false := by
                  intro hne
                  cases hcon : hasFullDayConflict store.bookings
                      req.facilityId (snapToSlot req.startsAt) with
                  | false => rfl
                  | true => exact absurd ⟨hne, hcon⟩ hc1
                have hday1 : bt = .full_day →
                    dayConflictRow store.bookings facility req.unitId
                      req.facilityId (snapToSlot req.startsAt) = none := by
                  intro hfd
                  rw [if_pos hfd] at hday
                  exact hday
                have hclub1 : req.userType = .club →
                    validClubName req.clubName = true := by
                  intro hcl
                  by_contra hv
                  exact hclub ⟨hcl, hv⟩
                have hov1 : hasUserOverlap store.bookings req.userName
                    (snapToSlot req.startsAt) (snapToSlot req.endsAt) =
                    false := by
                  cases hcon : hasUserOverlap store.bookings req.userName
                      (snapToSlot req.startsAt) (snapToSlot req.endsAt) with
                  | false => rfl
                  | true => exact absurd hcon hov
                split at h
                next hpool =>
                  split at h
                  next hcap =>
                    simp at h
                  next hcap =>
                    simp only [insertBooking] at h
                    split at h
                    next hkey =>
                      simp at h
                    next hkey =>
                      simp only [Except.ok.injEq, Prod.mk.injEq] at h
                      obtain ⟨hs1, hb⟩ := h
                      subst hb
                      subst hs1
                      refine ⟨facility, bt, hfac, hval, hcfd, hday1,
                        hclub1, hov1, ?_, ?_, rfl, rfl⟩
                      · cases hcon : hasActiveKey store.bookings
                            (generateIdempotencyKey req.userName
                              (snapToSlot req.startsAt)) with
                        | false => rfl
                        | true => exact absurd hcon hkey
                      · intro hpf
                        rw [hpf] at hpool
                        simp at hpool
                next hpool =>
                  split at h
                  next hunit =>
                    simp at h
                  next hunit =>
                    split at h
                    next hfindu =>
                      simp at h
                    next unitRow hfindu =>
                      split at h
                      next c hov2 =>
                        simp at h
                      next hov2 =>
                        simp only [insertBooking] at h
                        split at h
                        next hkey =>
                          simp at h
                        next hkey =>
                          simp only [Except.ok.injEq, Prod.mk.injEq] at h
                          obtain ⟨hs1, hb⟩ := h
                          subst hb
                          subst hs1
                          refine ⟨facility, bt, hfac, hval, hcfd, hday1,
                            hclub1, hov1, ?_, ?_, rfl, rfl⟩
                          · cases hcon : hasActiveKey store.bookings
                                (generateIdempotencyKey req.userName
                                  (snapToSlot req.startsAt)) with
                            | false => rfl
                            | true => exact absurd hcon hkey
                          · intro hpf
                            have hmem := List.mem_of_find?_eq_some hfindu
                            have hpred := List.find?_some hfindu
                            simp only [decide_eq_true_eq, Bool.and_eq_true]
                              at hpred
                            cases hu : req.unitId with
                            | none =>
                              rw [hu] at hunit
                              simp [Option.getD] at hunit
                            | some u =>
                              rw [hu] at hunit hpred
                              refine ⟨u, unitRow, rfl, ?_, hmem, ?_, ?_⟩
                              · intro h0
                                rw [h0] at hunit
                                simp [Option.getD] at hunit
                              · exact hpred.1
                              · exact hpred.2

/-- Witness for C6 (amended): alice books 10:00-11:00 at the courts; the
accepted booking respects open and close time on its civil day. -/
theorem validate_hours_amended_witness :
    validateBookingRequest courts 36000000 39600000 .individual 0 =
      .ok .time_based ∧
    dayStart 36000000 + courts.open_time * 60000 ≤ 36000000 ∧
    (39600000:Int) ≤ dayStart 36000000 + courts.close_time * 60000 :=
  ⟨by rfl,
   ((validate_hours_amended courts 36000000 39600000 .individual 0).2.2
     (by rfl) (by norm_num) (by norm_num)).1,
   ((validate_hours_amended courts 36000000 39600000 .individual 0).2.2
     (by rfl) (by norm_num) (by norm_num)).2 (by decide)⟩

/-- A store over the courts whose single unit carries the given
operational flag; createBooking never reads the flag. -/
def storeUnitOp (op : Bool) : Store where
  facilities := [courts]
  units := [{ courtUnitA with is_operational := op }]
  bookings := []
  nextId := 1

/-- The 10:00-11:00 request of alice for Court A. -/
def demoReq : CreateReq where
  facilityId := 2
  unitId := some 10
  userName := "alice"
  userType := .individual
  clubName := none
  startsAt := 36000000
  endsAt := 39600000

/-- The row inserted by a successful `demoReq` create. -/
def insertedDemo : Booking where
  id := 1
  facility_id := 2
  unit_id := some 10
  booked_by := "alice"
  user_type := .individual
  club_name := none
  booking_type := .time_based
  starts_at := 36000000
  ends_at := 39600000
  status := .scheduled
  idempotency_key := "alice_36000000"

/-- The store after the successful `demoReq` create. -/
def storeAfterUnitOp (op : Bool) : Store where
  facilities := [courts]
  units := [{ courtUnitA with is_operational := op }]
  bookings := [insertedDemo]
  nextId := 2

/-- C8 counterexample: with Court A flagged non-operational, the create
succeeds anyway and inserts a scheduled booking on that unit — the unit
integrity query of createBooking never filters on `is_operational`. -/
theorem create_nonoperational_counterexample :
    ({ courtUnitA with is_operational := false }).is_operational = false ∧
    createBooking (storeUnitOp false) 0 demoReq =
      .ok (storeAfterUnitOp false, insertedDemo) ∧
    insertedDemo.unit_id = some 10 ∧ insertedDemo.status = .scheduled :=
  ⟨rfl, rfl, rfl, rfl⟩

/-- C8 (amended): non-operational units are hidden from the unit-listing
and schedule views, but createBooking does not consult `is_operational`:
the create outcome is identical for both flag values, so a request naming
a non-operational unit of the facility succeeds and inserts the booking
on that unit. -/
theorem create_ignores_operational_flag :
    ∀ op : Bool, createBooking (storeUnitOp op) 0 demoReq =
      .ok (storeAfterUnitOp op, insertedDemo) := by
  intro op
  cases op <;> rfl

/-- A pooled store: the Main Library with no units and no bookings. -/
def poolStore : Store where
  facilities := [library]
  units := []
  bookings := []
  nextId := 1

/-- A pooled-facility request that nevertheless names a unit id. -/
def poolReq : CreateReq where
  facilityId := 1
  unitId := some 55
  userName := "alice"
  userType := .individual
  clubName := none
  startsAt := 36000000
  endsAt := 39600000

/-- The row inserted by `poolReq`: the caller-supplied unit id is stored
verbatim by `unitId || null`, even though the facility is pooled. -/
def poolInserted : Booking where
  id := 1
  facility_id := 1
  unit_id := some 55
  booked_by := "alice"
  user_type := .individual
  club_name := none
  booking_type := .time_based
  starts_at := 36000000
  ends_at := 39600000
  status := .scheduled
  idempotency_key := "alice_36000000"

/-- The pooled store after the `poolReq` create. -/
def poolStoreAfter : Store where
  facilities := [library]
  units := []
  bookings := [poolInserted]
  nextId := 2

/-- C7 counterexample: a create on the pooled library that supplies
`unitId = 55` succeeds and stores `unit_id = some 55`, not null — the
insert writes `unitId || null` without consulting `is_pooled`. -/
theorem create_pooled_unit_counterexample :
    library.is_pooled = true ∧
    createBooking poolStore 0 poolReq = .ok (poolStoreAfter, poolInserted) ∧
    poolInserted.unit_id = some 55 :=
  ⟨rfl, rfl, rfl⟩

/-- C7 (amended): a successful create on a unit-based facility stores a
non-null unit_id naming a unit of that facility; on a pooled facility the
insert stores the caller-supplied unitId verbatim (`unitId || null`), so
unit_id is null exactly when the caller omitted it (or sent the falsy 0),
not unconditionally. -/
theorem create_unit_id_amended (store : Store) (now : Int) (req : CreateReq)
    (s1 : Store) (b : Booking) (facility : Facility)
    (h : createBooking store now req = .ok (s1, b))
    (hfac : store.facilities.find? (fun f => f.id = req.facilityId) =
      some facility) :
    (facility.is_pooled = false →
      ∃ u unitRow, b.unit_id = some u ∧ unitRow ∈ store.units ∧
        unitRow.id = u ∧ unitRow.facility_id = req.facilityId) ∧
    (facility.is_pooled = true → b.unit_id = jsOrNull req.unitId) := by
  obtain ⟨facility2, bt, hfac2, hval, hcfd, hday, hclub, hov, hkey, hunit,
    hb, hs1⟩ := createBooking_ok_inv store now req s1 b h
  rw [hfac] at hfac2
  cases Option.some.inj hfac2
  constructor
  · intro hpf
    obtain ⟨u, unitRow, hu, hne0, hmem, hid, hfid⟩ := hunit hpf
    refine ⟨u, unitRow, ?_, hmem, hid, hfid⟩
    rw [hb]
    simp only [jsOrNull, hu, Option.getD_some]
    rw [if_neg hne0]
  · intro hpt
    rw [hb]

/-- Witness for C7 (amended): the unit-based create by alice stores unit 10,
a unit of the courts. -/
theorem create_unit_id_amended_witness :
    createBooking (storeUnitOp true) 0 demoReq =
      .ok (storeAfterUnitOp true, insertedDemo) ∧
    courts.is_pooled = false ∧
    (∃ u unitRow, insertedDemo.unit_id = some u ∧
      unitRow ∈ (storeUnitOp true).units ∧ unitRow.id = u ∧
      unitRow.facility_id = 2) :=
  ⟨by rfl, by rfl,
   (create_unit_id_amended (storeUnitOp true) 0 demoReq
     (storeAfterUnitOp true) insertedDemo courts (by rfl) (by rfl)).1
     (by rfl)⟩

/-- C1 counterexample: submitting `demoReq` twice in sequence yields one
booking, but the second submission fails at the user self-overlap guard
("You already have a reserved or active session during this window."),
not at the duplicate-submission remap of the unique active-idempotency
index ("Duplicate booking attempt detected."): the overlap query runs
before the insert ever reaches the index. The status is still 409 and the
store holds exactly one active booking for the key. -/
theorem create_double_submit_counterexample :
    createBooking (storeUnitOp true) 0 demoReq =
      .ok (storeAfterUnitOp true, insertedDemo) ∧
    insertedDemo.status = .scheduled ∧
    createBooking (storeAfterUnitOp true) 0 demoReq =
      .error .userOverlap ∧
    Err.userOverlap ≠ Err.duplicateSubmission ∧
    Err.status .userOverlap = 409 ∧
    ((storeAfterUnitOp true).bookings.filter (fun x =>
      x.idempotency_key = "alice_36000000" ∧ isActive x.status)).length =
      1 :=
  ⟨rfl, rfl, rfl, by decide, rfl, by decide⟩

/-- A full_day classification forces a club caller: the validator throws
403 before returning full_day for anyone else. -/
theorem validate_ok_full_day_club (facility : Facility) (s e : Int)
    (ut : UserType) (now : Int)
    (h : validateBookingRequest facility s e ut now = .ok .full_day) :
    ut = .club := by
  rw [validateBookingRequest_eq] at h
  split_ifs at h with h1 h2 h3 h4 h5 h6 h7 h8 <;> (try simp at h)
  exact not_ne_iff.mp h6

/-- snapToSlot lands on a 30-minute boundary. -/
theorem snapToSlot_dvd (t : Int) : (1800000:Int) ∣ snapToSlot t := by
  show (1800000:Int) ∣ hourFloor t + (2 * minuteOfHour t + 30) / 60 * 30 * 60000
  have h1 : (1800000:Int) ∣ hourFloor t := by
    refine ⟨2 * (t / 3600000), ?_⟩
    unfold hourFloor
    omega
  have h2 : (1800000:Int) ∣ (2 * minuteOfHour t + 30) / 60 * 30 * 60000 :=
    ⟨(2 * minuteOfHour t + 30) / 60, by ring⟩
  exact dvd_add h1 h2

/-- Midnight of the civil day of an instant is no later than it. -/
theorem dayStart_le (t : Int) : dayStart t ≤ t := by
  unfold dayStart
  omega

/-- A 30-minute-aligned instant lies strictly before the 23:59:59.999
end of its civil day. -/
theorem snapped_lt_dayEnd (t : Int) (h : (1800000:Int) ∣ t) :
    t < dayEnd t := by
  obtain ⟨k, rfl⟩ := h
  unfold dayEnd dayStart
  have h2 : (1800000 * k) % 86400000 = 1800000 * (k % 48) := by
    rw [show (86400000:Int) = 1800000 * 48 by norm_num]
    rw [Int.mul_emod_mul_of_pos _ _ (by norm_num : (0:Int) < 1800000)]
  rw [h2]
  have h3 : 0 ≤ k % 48 := Int.emod_nonneg k (by norm_num)
  have h4 : k % 48 < 48 := Int.emod_lt_of_pos k (by norm_num)
  omega

/-- C1 (amended): re-submitting an identical create yields exactly one
booking: the first insert succeeds with status scheduled, and the second
submission fails with Conflict (409) — raised by a guard that runs before
the insert ever reaches the unique active-idempotency index: the user
self-overlap check for a time_based request, and the full-day
day-conflict check (the day is already taken by that club) for a full_day
request; in neither case does the duplicate-submission remap of the index
fire. The store keeps exactly one active booking for the derived key. -/
theorem create_double_submit_amended (store : Store) (now : Int)
    (req : CreateReq) (s1 : Store) (b : Booking)
    (h : createBooking store now req = .ok (s1, b)) :
    b.status = .scheduled ∧
    (b.booking_type = .time_based →
      createBooking s1 now req = .error .userOverlap) ∧
    (b.booking_type = .full_day →
      createBooking s1 now req = .error .dayTakenByClub) ∧
    (∃ e2, createBooking s1 now req = .error e2 ∧ Err.status e2 = 409 ∧
      e2 ≠ .duplicateSubmission) ∧
    (s1.bookings.filter (fun x =>
      x.idempotency_key =
        generateIdempotencyKey req.userName (snapToSlot req.startsAt) ∧
      isActive x.status)).length = 1 := by
  obtain ⟨facility, bt, hfac, hval, hcfd, hday, hclub, hov, hkey, hunit,
    hb, hs1⟩ := createBooking_ok_inv store now req s1 b h
  have hbty : b.booking_type = bt := by rw [hb]
  have hbby : b.booked_by = req.userName := by rw [hb]
  have hbst : b.status = .scheduled := by rw [hb]
  have hbs : b.starts_at = snapToSlot req.startsAt := by rw [hb]
  have hbe : b.ends_at = snapToSlot req.endsAt := by rw [hb]
  have hbfid : b.facility_id = req.facilityId := by rw [hb]
  have hbuid : b.unit_id = jsOrNull req.unitId := by rw [hb]
  have hbk : b.idempotency_key =
      generateIdempotencyKey req.userName (snapToSlot req.startsAt) := by
    rw [hb]
  have hlt := validate_ok_lt facility (snapToSlot req.startsAt)
    (snapToSlot req.endsAt) req.userType now bt hval
  subst hs1
  have hsecond :
      (bt = .time_based →
        createBooking { store with bookings := store.bookings ++ [b], nextId := store.nextId + 1 } now req = .error .userOverlap) ∧
      (bt = .full_day →
        createBooking { store with bookings := store.bookings ++ [b], nextId := store.nextId + 1 } now req = .error .dayTakenByClub) := by
    constructor
    · intro hT
      subst hT
      have hfd0 : hasFullDayConflict store.bookings req.facilityId
          (snapToSlot req.startsAt) = false := hcfd (by simp)
      have hfdb : hasFullDayConflict (store.bookings ++ [b]) req.facilityId
          (snapToSlot req.startsAt) = false := by
        unfold hasFullDayConflict at hfd0 ⊢
        rw [List.any_append, hfd0]
        simp [hbty]
      have hovb : hasUserOverlap (store.bookings ++ [b]) req.userName
          (snapToSlot req.startsAt) (snapToSlot req.endsAt) = true := by
        unfold hasUserOverlap
        rw [List.any_append]
        simp [hbby, hbst, hbs, hbe, isActive, hlt]
      have hclub2 : ¬ (req.userType = UserType.club ∧
          ¬ validClubName req.clubName = true) := by
        rintro ⟨h1c, h2c⟩
        exact h2c (hclub h1c)
      simp [createBooking, hfac, hval, hfdb, hovb, hclub2]
      exact hclub
    · intro hF
      subst hF
      have hclubty : req.userType = .club :=
        validate_ok_full_day_club facility (snapToSlot req.startsAt)
          (snapToSlot req.endsAt) req.userType now hval
      have hday0 : dayConflictRow store.bookings facility req.unitId
          req.facilityId (snapToSlot req.startsAt) = none := hday rfl
      have hlt2 : b.starts_at < dayEnd (snapToSlot req.startsAt) := by
        rw [hbs]
        exact snapped_lt_dayEnd _ (snapToSlot_dvd req.startsAt)
      have hgt2 : b.ends_at > dayStart (snapToSlot req.startsAt) := by
        rw [hbe]
        have hd := dayStart_le (snapToSlot req.startsAt)
        omega
      have hdayb : dayConflictRow (store.bookings ++ [b]) facility
          req.unitId req.facilityId (snapToSlot req.startsAt) = some b := by
        unfold dayConflictRow at hday0 ⊢
        rw [List.find?_append, hday0]
        cases hp : facility.is_pooled with
        | true =>
          simp [hp, hbst, hbfid, isActive, hlt2, hgt2]
        | false =>
          obtain ⟨u, unitRow, hu, hne0, -, -, -⟩ := hunit hp
          have hsq : sqlEqOpt b.unit_id req.unitId = true := by
            rw [hbuid, hu]
            simp [jsOrNull, hne0, sqlEqOpt]
          simp [hp, hbst, hsq, isActive, hlt2, hgt2]
      rw [hclubty] at hval
      simp [createBooking, hfac, hval, hdayb, hclubty, hbty]
  refine ⟨hbst, ?_, ?_, ?_, ?_⟩
  · intro htb
    exact hsecond.1 (hbty.symm.trans htb)
  · intro hfb
    exact hsecond.2 (hbty.symm.trans hfb)
  · cases bt with
    | time_based =>
      exact ⟨.userOverlap, hsecond.1 rfl, rfl, by decide⟩
    | full_day =>
      exact ⟨.dayTakenByClub, hsecond.2 rfl, rfl, by decide⟩
  · have hkey1 : ∀ x ∈ store.bookings,
        ¬ (x.idempotency_key =
            generateIdempotencyKey req.userName (snapToSlot req.startsAt) ∧
          isActive x.status = true) := by
      unfold hasActiveKey at hkey
      rw [List.any_eq_false] at hkey
      intro x hx
      have := hkey x hx
      simpa using this
    have hnil : store.bookings.filter (fun x =>
        x.idempotency_key =
          generateIdempotencyKey req.userName (snapToSlot req.startsAt) ∧
        isActive x.status) = [] := by
      rw [List.filter_eq_nil_iff]
      intro a ha
      simpa using hkey1 a ha
    show ((store.bookings ++ [b]).filter _).length = 1
    rw [List.filter_append, hnil]
    simp [hbk, hbst, isActive]

/-- The full-day request of the Roobooru club for Court A, 10:00-18:00
(duration exactly 8h, classified full_day). -/
def fdReq : CreateReq where
  facilityId := 2
  unitId := some 10
  userName := "roo"
  userType := .club
  clubName := some "Roobooru"
  startsAt := 36000000
  endsAt := 64800000

/-- The row inserted by a successful `fdReq` create. -/
def fdInserted : Booking where
  id := 1
  facility_id := 2
  unit_id := some 10
  booked_by := "roo"
  user_type := .club
  club_name := some "Roobooru"
  booking_type := .full_day
  starts_at := 36000000
  ends_at := 64800000
  status := .scheduled
  idempotency_key := "roo_36000000"

/-- The store after the successful `fdReq` create. -/
def fdStoreAfter : Store where
  facilities := [courts]
  units := [{ courtUnitA with is_operational := true }]
  bookings := [fdInserted]
  nextId := 2

/-- Witness for C1 (amended): alice double-submits her time_based
10:00-11:00 request — the second call fails 409 at the self-overlap
guard and one active booking holds the key; the Roobooru club
double-submits an 8h full-day request — the second call fails 409 at the
day-conflict guard. -/
theorem create_double_submit_amended_witness :
    createBooking (storeUnitOp true) 0 demoReq =
      .ok (storeAfterUnitOp true, insertedDemo) ∧
    insertedDemo.status = .scheduled ∧
    createBooking (storeAfterUnitOp true) 0 demoReq =
      .error .userOverlap ∧
    Err.status .userOverlap = 409 ∧
    ((storeAfterUnitOp true).bookings.filter (fun x =>
      x.idempotency_key =
        generateIdempotencyKey demoReq.userName (snapToSlot demoReq.startsAt) ∧
      isActive x.status)).length = 1 ∧
    createBooking (storeUnitOp true) 0 fdReq =
      .ok (fdStoreAfter, fdInserted) ∧
    createBooking fdStoreAfter 0 fdReq = .error .dayTakenByClub :=
  ⟨by rfl,
   (create_double_submit_amended (storeUnitOp true) 0 demoReq
     (storeAfterUnitOp true) insertedDemo (by rfl)).1,
   (create_double_submit_amended (storeUnitOp true) 0 demoReq
     (storeAfterUnitOp true) insertedDemo (by rfl)).2.1 (by rfl),
   rfl,
   (create_double_submit_amended (storeUnitOp true) 0 demoReq
     (storeAfterUnitOp true) insertedDemo (by rfl)).2.2.2.2,
   by rfl,
   (create_double_submit_amended (storeUnitOp true) 0 fdReq
     fdStoreAfter fdInserted (by rfl)).2.2.1 (by rfl)⟩
